import Mathlib

/-!
Shallow embedding of the Groceri price-comparison core: the two provider
adapters (src/api/kroger.ts, src/api/walmart.ts), the aggregator
(src/api/index.ts, fetchProductWithDeals and searchProducts) and the deal
evaluator (evaluateDeal in the scanner modal).

Modelling conventions:
- JS numbers are modelled as rationals; the adapters never produce NaN on
  the payload shapes modelled here (nullable numeric fields are Option Rat).
- Nullable / possibly-missing JSON fields are Option values; the JS
  nullish-coalescing operator a orelse b is Option.orElse / getD.
- Network requests are not performed; each remote endpoint response is a
  field of an Env record, and every operation additionally returns the list
  of network calls it would have performed, so that claims about which
  requests happen are statable.
- The JS array sort with comparator (a, b) => a.price - b.price is a stable
  sort on a consistent comparator, modelled by List.mergeSort on the
  boolean relation price-less-or-equal.
-/

/-- Deal tag, TS union type DealTag with values DEAL, SO-SO, NO DEAL
(src/types/item.ts). SOSO stands for the string SO-SO and NODEAL for the
string NO DEAL. -/
inductive DealTag where
  | DEAL
  | SOSO
  | NODEAL
deriving DecidableEq, Repr

/-- Recommendation record from src/types/item.ts. -/
structure Recommendation where
  id : String
  name : String
  price : ℚ
  store : String
  distance : Option ℚ
deriving DecidableEq, Repr

/-- Geographic coordinate pair, the shape { lat, lon } used by Item. -/
structure Coord where
  lat : ℚ
  lon : ℚ
deriving DecidableEq, Repr

/-- Item record from src/types/item.ts. -/
structure Item where
  id : String
  name : String
  brand : Option String
  price : ℚ
  image : String
  store : Option String
  coordinates : Option Coord
  isOrganic : Option Bool
  tag : Option DealTag
  recommendations : Option (List Recommendation)
deriving DecidableEq, Repr

/-- JS truthiness of a string-or-undefined value: falsy when undefined or
the empty string. Used for the env-var guards and the token guards. -/
def truthyStr : Option String → Bool
  | none => false
  | some s => !(s == "")

/-- JS String.prototype.toLowerCase restricted to ASCII letters, written
structurally so that it evaluates by kernel reduction. -/
def jsToLower (s : String) : String :=
  String.mk (s.data.map Char.toLower)

/-- JS String.prototype.includes: substring containment test. -/
def strIncludes (s pat : String) : Bool :=
  (List.range (s.length + 1)).any fun i => pat.toList.isPrefixOf (s.toList.drop i)

/-! ## Kroger adapter payload shapes and parsing (src/api/kroger.ts) -/

/-- The price object of a Kroger product payload, item.items[0].price.
Fields are present numeric values or absent/null. -/
structure KrogerPrice where
  promo : Option ℚ
  regular : Option ℚ
deriving DecidableEq, Repr

/-- One entry of item.images[0].sizes in a Kroger product payload. -/
structure ImageSize where
  size : String
  url : Option String
deriving DecidableEq, Repr

/-- Raw Kroger product payload entry (json.data[i]) with the fields the
adapter reads. The price field stands for item.items[0].price (the empty
object when that path is absent) and sizes for item.images[0].sizes. -/
structure RawKrogerProduct where
  upc : Option String
  productId : Option String
  price : KrogerPrice
  sizes : List ImageSize
  description : Option String
  brand : Option String
  attributes : Option (List String)
  primaryDepartment : Option String
deriving DecidableEq, Repr

/-- Raw Kroger location payload entry (json.data[i]) with the fields read
by searchKrogerLocations: locationId, address.name, geolocation. -/
structure RawKrogerLocation where
  locationId : String
  addressName : Option String
  geoLat : Option ℚ
  geoLon : Option ℚ
deriving DecidableEq, Repr

/-- Parsed Kroger store location as returned by searchKrogerLocations. -/
structure KrogerLocation where
  locationId : String
  name : String
  coordinates : Coord
deriving DecidableEq, Repr

/-- Mapping of one raw location entry in searchKrogerLocations:
name is loc.address.name with fallback to the locationId, coordinates
default to 0 when the geolocation fields are absent. -/
def parseKrogerLocation (raw : RawKrogerLocation) : KrogerLocation :=
  { locationId := raw.locationId
    name := raw.addressName.getD raw.locationId
    coordinates := { lat := raw.geoLat.getD 0, lon := raw.geoLon.getD 0 } }

/-- Image URL selection shared by the Kroger product parsers:
sizes.find(size == medium)?.url with fallback to sizes[0]?.url, then
the empty string. -/
def krogerImageUrl (sizes : List ImageSize) : String :=
  (((sizes.find? fun s => s.size == "medium").bind ImageSize.url).orElse
    fun _ => sizes.head?.bind ImageSize.url).getD ""

/-- Organic heuristic of the Kroger parsers: item.attributes, when present,
scanned case-insensitively for the substring organic; false when the
attributes field is absent. -/
def krogerIsOrganic (attributes : Option (List String)) : Bool :=
  (attributes.map fun attrs =>
    attrs.any fun attr => strIncludes (jsToLower attr) "organic").getD false

/-- Body of getKrogerProductByUPC once a payload entry is present
(src/api/kroger.ts lines 150 to 169). The price is
Number(priceInfo.promo orelse priceInfo.regular orelse 0); the name is
item.description with the Unknown Product fallback (the second
alternative, description.consumer, is unreachable in the source because
it is evaluated only when description itself is nullish); the store is
item.primaryDepartment with fallback Kroger. -/
def parseKrogerProduct (upc : String) (raw : RawKrogerProduct) : Item :=
  { id := upc
    name := raw.description.getD "Unknown Product"
    brand := raw.brand
    price := (raw.price.promo.orElse fun _ => raw.price.regular).getD 0
    image := krogerImageUrl raw.sizes
    store := some (raw.primaryDepartment.getD "Kroger")
    coordinates := none
    isOrganic := some (krogerIsOrganic raw.attributes)
    tag := none
    recommendations := none }

/-- Mapping of one search payload entry in searchKrogerProducts
(src/api/kroger.ts lines 239 to 257): same field extraction as the UPC
lookup, except that the id is item.upc orelse item.productId orelse the
empty string, and store and coordinates come from the first located
store. -/
def parseKrogerSearchItem (loc : KrogerLocation) (raw : RawKrogerProduct) : Item :=
  { id := (raw.upc.orElse fun _ => raw.productId).getD ""
    name := raw.description.getD "Unknown Product"
    brand := raw.brand
    price := (raw.price.promo.orElse fun _ => raw.price.regular).getD 0
    image := krogerImageUrl raw.sizes
    store := some loc.name
    coordinates := some loc.coordinates
    isOrganic := some (krogerIsOrganic raw.attributes)
    tag := none
    recommendations := none }

/-! ## Walmart adapter payload shapes and parsing (src/api/walmart.ts) -/

/-- Raw Walmart item payload entry with the fields the adapter reads.
Numeric price fields are present numeric values or absent/null/NaN
(a non-numeric field value behaves like an absent one in the source,
which skips entries whose Number conversion is NaN). -/
structure RawWalmartItem where
  upc : Option String
  itemId : Option String
  salePrice : Option ℚ
  listPrice : Option ℚ
  msrp : Option ℚ
  price : Option ℚ
  name : Option String
  title : Option String
  shortName : Option String
  mediumImage : Option String
  imageUrl : Option String
  thumbnailImage : Option String
  brandName : Option String
  brand : Option String
deriving DecidableEq, Repr

/-- Raw Walmart store payload entry with the fields read by
searchWalmartStores. -/
structure RawWalmartStore where
  no : Option String
  storeId : Option String
  id : Option String
  name : Option String
  storeType : Option String
  zip : Option String
  zipCode : Option String
  postalCode : Option String
deriving DecidableEq, Repr

/-- Parsed Walmart store as returned by searchWalmartStores. -/
structure WalmartStore where
  id : String
  name : String
  zipCode : Option String
deriving DecidableEq, Repr

/-- Mapping of one raw store entry in searchWalmartStores
(src/api/walmart.ts lines 117 to 121). -/
def parseWalmartStore (raw : RawWalmartStore) : WalmartStore :=
  { id := ((raw.no.orElse fun _ => raw.storeId).orElse fun _ => raw.id).getD ""
    name := (raw.name.orElse fun _ => raw.storeType).getD "Walmart Store"
    zipCode := (raw.zip.orElse fun _ => raw.zipCode).orElse fun _ => raw.postalCode }

/-- Walmart price extraction (src/api/walmart.ts lines 152 to 161):
map each candidate field to its numeric value or NaN, take the first
non-NaN one, default 0. With nullable numerics as Option values this is
the first present field of the list, with join on the find result. -/
def walmartPriceOf (fields : List (Option ℚ)) : ℚ :=
  ((fields.find? Option.isSome).bind id).getD 0

/-- Shared field extraction of the Walmart item parsers, without the
store label (which differs between the UPC lookup and the search). -/
def walmartNameOf (raw : RawWalmartItem) : String :=
  ((raw.name.orElse fun _ => raw.title).orElse fun _ => raw.shortName).getD "Unknown Product"

/-- Image selection of the Walmart item parsers. -/
def walmartImageOf (raw : RawWalmartItem) : String :=
  ((raw.mediumImage.orElse fun _ => raw.imageUrl).orElse fun _ => raw.thumbnailImage).getD ""

/-- Body of getWalmartProductByUPC once a payload entry is present
(src/api/walmart.ts lines 147 to 177). The store label is
Walmart (storeId) when the storeId argument is truthy, else Walmart. -/
def parseWalmartItem (upc : String) (storeId : Option String) (raw : RawWalmartItem) : Item :=
  let name := walmartNameOf raw
  { id := upc
    name := name
    brand := raw.brandName.orElse fun _ => raw.brand
    price := walmartPriceOf [raw.salePrice, raw.listPrice, raw.msrp, raw.price]
    image := walmartImageOf raw
    store := some (if truthyStr storeId then "Walmart (" ++ storeId.getD "" ++ ")" else "Walmart")
    coordinates := none
    isOrganic := some (strIncludes (jsToLower name) "organic")
    tag := none
    recommendations := none }

/-- Mapping of one search payload entry in searchWalmartProducts
(src/api/walmart.ts lines 234 to 259): the id is item.upc orelse
item.itemId orelse the empty string, and the store label names the
default store (the first located one) when present. -/
def parseWalmartSearchItem (defaultStore : Option WalmartStore) (raw : RawWalmartItem) : Item :=
  let name := walmartNameOf raw
  { id := (raw.upc.orElse fun _ => raw.itemId).getD ""
    name := name
    brand := raw.brandName.orElse fun _ => raw.brand
    price := walmartPriceOf [raw.salePrice, raw.listPrice, raw.msrp, raw.price]
    image := walmartImageOf raw
    store := some (match defaultStore with
      | some s => "Walmart (" ++ s.name ++ ")"
      | none => "Walmart")
    coordinates := none
    isOrganic := some (strIncludes (jsToLower name) "organic")
    tag := none
    recommendations := none }

/-! ## Environment and network-call tracking -/

/-- One network request the code would perform. The two search endpoints
record the query parameters the source puts in the URL, since the claims
mention the requested result limit. -/
inductive NetCall where
  | krogerAuth
  | krogerLocations
  | krogerProduct (locationId : String)
  | krogerSearch (query : List (String × String))
  | walmartStores
  | walmartItems (storeId zipCode : Option String)
  | walmartSearch (query : List (String × String))
deriving DecidableEq, Repr

/-- Process environment variables plus the response every remote endpoint
would give during one resolution. A response value of none stands for any
transport or decode failure (network error, non-ok status, missing data
array); the source collapses all of these to the same empty or absent
result. -/
structure Env where
  krogerClientId : Option String
  krogerClientSecret : Option String
  walmartPublisherId : Option String
  krogerAuthResp : Option String
  krogerLocationsResp : Option (List RawKrogerLocation)
  krogerProductResp : String → Option RawKrogerProduct
  krogerSearchResp : Option (List RawKrogerProduct)
  walmartStoresResp : Option (List RawWalmartStore)
  walmartItemResp : Option String → Option String → Option RawWalmartItem
  walmartSearchResp : Option (List RawWalmartItem)

/-- getKrogerAccessToken (src/api/kroger.ts lines 30 to 73): when the
client id or secret is falsy no request is made and the result is null;
otherwise the token endpoint is called and the token, or null on failure,
is returned. -/
def getKrogerAccessToken (env : Env) : Option String × List NetCall :=
  if truthyStr env.krogerClientId && truthyStr env.krogerClientSecret then
    (env.krogerAuthResp, [NetCall.krogerAuth])
  else
    (none, [])

/-- searchKrogerLocations (src/api/kroger.ts lines 81 to 121): one call to
the locations endpoint; an empty list on failure, else the mapped data
array. -/
def searchKrogerLocations (env : Env) : List KrogerLocation × List NetCall :=
  (match env.krogerLocationsResp with
    | none => []
    | some raws => raws.map parseKrogerLocation,
   [NetCall.krogerLocations])

/-- getKrogerProductByUPC (src/api/kroger.ts lines 129 to 174): one call to
the products endpoint; null on failure or when the data array is empty,
else the parsed first entry. -/
def getKrogerProductByUPC (env : Env) (upc locationId : String) :
    Option Item × List NetCall :=
  ((env.krogerProductResp locationId).map (parseKrogerProduct upc),
   [NetCall.krogerProduct locationId])

/-- searchWalmartStores (src/api/walmart.ts lines 105 to 122): one call to
the stores endpoint; empty on failure, else the mapped store array. -/
def searchWalmartStores (env : Env) : List WalmartStore × List NetCall :=
  (match env.walmartStoresResp with
    | none => []
    | some raws => raws.map parseWalmartStore,
   [NetCall.walmartStores])

/-- getWalmartProductByUPC (src/api/walmart.ts lines 131 to 177): one call
to the items endpoint; null on failure or when no item entry is present,
else the parsed first entry. -/
def getWalmartProductByUPC (env : Env) (upc : String)
    (storeId zipCode : Option String) : Option Item × List NetCall :=
  ((env.walmartItemResp storeId zipCode).map (parseWalmartItem upc storeId),
   [NetCall.walmartItems storeId zipCode])

/-- Stable insertion step of the price sort: place d after every element
whose price is strictly smaller, and before the first other element, so
that elements of equal price keep their original relative order. -/
def insertByPrice (d : Recommendation) : List Recommendation → List Recommendation
  | [] => [d]
  | e :: es => if e.price < d.price then e :: insertByPrice d es else d :: e :: es

/-- The JS array sort with the consistent comparator
(a, b) => a.price - b.price: JS sort is required to be stable, and for a
consistent comparator the stable sorted permutation is unique, so any
stable sorting algorithm models it; this is stable insertion sort,
written structurally so that it evaluates by kernel reduction. -/
def sortByPrice (l : List Recommendation) : List Recommendation :=
  l.foldr insertByPrice []

/-- getKrogerDeals (src/api/kroger.ts lines 181 to 205): locate stores,
look the product up at every store sequentially, keep only results whose
product is present with a truthy (nonzero) price, label each offer with
the store name, and sort ascending by price. -/
def getKrogerDeals (env : Env) (upc : String) : List Recommendation × List NetCall :=
  let (locations, c1) := searchKrogerLocations env
  let deals := locations.filterMap fun loc =>
    match (getKrogerProductByUPC env upc loc.locationId).1 with
    | none => none
    | some p =>
        if p.price = 0 then none
        else some { id := p.id, name := p.name, price := p.price,
                    store := "Kroger (" ++ loc.name ++ ")", distance := none }
  (sortByPrice deals,
   c1 ++ locations.map fun loc => NetCall.krogerProduct loc.locationId)

/-- getWalmartDeals (src/api/walmart.ts lines 185 to 207): locate stores,
look the product up at every store sequentially, keep only results whose
product is present with a truthy (nonzero) price, and sort ascending by
price. -/
def getWalmartDeals (env : Env) (upc : String) : List Recommendation × List NetCall :=
  let (stores, c1) := searchWalmartStores env
  let deals := stores.filterMap fun store =>
    match (getWalmartProductByUPC env upc (some store.id) store.zipCode).1 with
    | none => none
    | some p =>
        if p.price = 0 then none
        else some { id := p.id, name := p.name, price := p.price,
                    store := p.store.getD "Walmart", distance := none }
  (sortByPrice deals,
   c1 ++ stores.map fun store => NetCall.walmartItems (some store.id) store.zipCode)

/-- Query parameters of the Kroger free-text search request
(src/api/kroger.ts lines 224 to 227); the limit parameter asks the
provider for at most 20 results. -/
def krogerSearchQuery (term locationId : String) : List (String × String) :=
  [("filter.term", term), ("filter.locationId", locationId), ("filter.limit", "20")]

/-- searchKrogerProducts (src/api/kroger.ts lines 214 to 262): locate
stores, return empty when none found, else query the products endpoint
with the search term and the first locationId and map every payload entry
to an item. The payload is not truncated by the adapter itself. -/
def searchKrogerProducts (env : Env) (term : String) : List Item × List NetCall :=
  let (locations, c1) := searchKrogerLocations env
  match locations with
  | [] => ([], c1)
  | loc :: _ =>
    let call := NetCall.krogerSearch (krogerSearchQuery term loc.locationId)
    match env.krogerSearchResp with
    | none => ([], c1 ++ [call])
    | some data => (data.map (parseKrogerSearchItem loc), c1 ++ [call])

/-- Query parameters of the Walmart free-text search request
(src/api/walmart.ts lines 222 to 227); numItems asks the provider for at
most 20 results. -/
def walmartSearchQuery (term : String) : List (String × String) :=
  [("query", term), ("sort", "bestseller"), ("order", "ascending"), ("numItems", "20")]

/-- searchWalmartProducts (src/api/walmart.ts lines 216 to 260): query the
search endpoint, return empty on failure, else locate stores to pick a
default store and map every payload entry to an item. The payload is not
truncated by the adapter itself. -/
def searchWalmartProducts (env : Env) (term : String) : List Item × List NetCall :=
  let call := NetCall.walmartSearch (walmartSearchQuery term)
  match env.walmartSearchResp with
  | none => ([], [call])
  | some items =>
    let (stores, c2) := searchWalmartStores env
    (items.map (parseWalmartSearchItem stores.head?), [call] ++ c2)

/-! ## Aggregator (src/api/index.ts) -/

/-- Result shape of fetchProductWithDeals. -/
structure ResolveResult where
  item : Option Item
  deals : List Recommendation
deriving DecidableEq, Repr

/-- The token acquired at the start of fetchProductWithDeals. -/
def krogerTokenOf (env : Env) : Option String :=
  (getKrogerAccessToken env).1

/-- The hasWalmart guard of fetchProductWithDeals, the truthiness of
WALMART_PUBLISHER_ID. -/
def hasWalmartOf (env : Env) : Bool :=
  truthyStr env.walmartPublisherId

/-- The Kroger candidate item of fetchProductWithDeals (src/api/index.ts
lines 39 to 57): null when the token is falsy or no store is located or
the lookup fails; otherwise the looked-up product with store and
coordinates overwritten from the first located store. Also returns the
calls performed. -/
def krogerCandidate (env : Env) (upc : String) : Option Item × List NetCall :=
  if truthyStr (krogerTokenOf env) then
    let (locations, c1) := searchKrogerLocations env
    match locations with
    | [] => (none, c1)
    | loc :: _ =>
      let (product, c2) := getKrogerProductByUPC env upc loc.locationId
      match product with
      | none => (none, c1 ++ c2)
      | some p =>
        (some { p with store := some loc.name, coordinates := some loc.coordinates },
         c1 ++ c2)
  else (none, [])

/-- The Walmart candidate item of fetchProductWithDeals (src/api/index.ts
lines 58 to 76): null when no publisher id is configured or no store is
located or the lookup fails; otherwise the looked-up product with
coordinates cleared. -/
def walmartCandidate (env : Env) (upc : String) : Option Item × List NetCall :=
  if hasWalmartOf env then
    let (stores, c1) := searchWalmartStores env
    match stores with
    | [] => (none, c1)
    | store :: _ =>
      let (product, c2) := getWalmartProductByUPC env upc (some store.id) store.zipCode
      match product with
      | none => (none, c1 ++ c2)
      | some p => (some { p with coordinates := none }, c1 ++ c2)
  else (none, [])

/-- The canonical item selection (src/api/index.ts line 80): the Kroger
candidate takes precedence, then the Walmart one. -/
def resolvedItemOf (env : Env) (upc : String) : Option Item :=
  ((krogerCandidate env upc).1).orElse fun _ => (walmartCandidate env upc).1

/-- The deals array after the two push statements (src/api/index.ts lines
82 to 103): Walmart deals are fetched when the Kroger candidate exists and
Walmart is configured; Kroger deals are fetched when the Walmart candidate
exists and the Kroger token is truthy. Walmart deals are appended first. -/
def appendedDeals (env : Env) (upc : String) : List Recommendation :=
  (if (krogerCandidate env upc).1.isSome && hasWalmartOf env then
     (getWalmartDeals env upc).1
   else []) ++
  (if (walmartCandidate env upc).1.isSome && truthyStr (krogerTokenOf env) then
     (getKrogerDeals env upc).1
   else [])

/-- The lower-cased store label of the scanned item (src/api/index.ts line
105), undefined when the item has no store. -/
def scannedStoreOf (it : Item) : Option String :=
  it.store.map jsToLower

/-- The filteredDeals array before sorting (src/api/index.ts lines 106 to
108): keep each deal whose lower-cased store label differs from the
scanned store label under strict inequality, which always holds when the
scanned label is undefined. -/
def selfFilteredDeals (env : Env) (upc : String) : List Recommendation :=
  match resolvedItemOf env upc with
  | none => []
  | some it =>
    (appendedDeals env upc).filter fun d =>
      !(scannedStoreOf it == some (jsToLower d.store))

/-- The network calls one invocation of fetchProductWithDeals performs, in
source order (the two candidate branches run concurrently in the source,
so the order between them is a canonicalisation). -/
def resolveCalls (env : Env) (upc : String) : List NetCall :=
  (getKrogerAccessToken env).2 ++
  (krogerCandidate env upc).2 ++
  (walmartCandidate env upc).2 ++
  (if (resolvedItemOf env upc).isSome then
     (if (krogerCandidate env upc).1.isSome && hasWalmartOf env then
        (getWalmartDeals env upc).2
      else []) ++
     (if (walmartCandidate env upc).1.isSome && truthyStr (krogerTokenOf env) then
        (getKrogerDeals env upc).2
      else [])
   else [])

/-- fetchProductWithDeals (src/api/index.ts lines 28 to 114): resolve the
canonical item; when present, return it with the self-filtered deal list
sorted ascending by price, else the absent result with no deals. -/
def fetchProductWithDeals (env : Env) (upc : String) :
    ResolveResult × List NetCall :=
  match resolvedItemOf env upc with
  | some it =>
    ({ item := some it, deals := sortByPrice (selfFilteredDeals env upc) },
     resolveCalls env upc)
  | none => ({ item := none, deals := [] }, resolveCalls env upc)

/-- searchProducts (src/api/index.ts lines 123 to 152): the Kroger search
results, when a token was acquired, followed by the Walmart search
results, when a publisher id is configured. -/
def searchProducts (env : Env) (term : String) : List Item × List NetCall :=
  let (token, c0) := getKrogerAccessToken env
  let (kroger, c1) :=
    if truthyStr token then searchKrogerProducts env term else ([], [])
  let (walmart, c2) :=
    if truthyStr env.walmartPublisherId then searchWalmartProducts env term else ([], [])
  (kroger ++ walmart, c0 ++ c1 ++ c2)

/-! ## Deal evaluator (src/app/(modals) scanner, evaluateDeal) -/

/-- The five percent margin of evaluateDeal. -/
def margin : ℚ := 5 / 100

/-- evaluateDeal (scanner modal, lines 25 to 53): classify the scanned
item against the deal list. With deals present, the first deal is treated
as the cheapest; verdict DEAL with the first two deals when the scanned
price is at most the cheapest price, verdict SO-SO with every deal within
the relative margin of the scanned price when the scanned price is at most
the cheapest price times one plus the margin, else verdict NO DEAL with
the first three deals. With no deals, the existing tag is kept, defaulting
to DEAL, and the recommendations are cleared. -/
def evaluateDeal (scanned : Item) (deals : List Recommendation) : Item :=
  match deals with
  | [] =>
    { scanned with tag := some (scanned.tag.getD DealTag.DEAL),
                   recommendations := none }
  | cheapest :: rest =>
    if scanned.price ≤ cheapest.price then
      { scanned with tag := some DealTag.DEAL,
                     recommendations := some ((cheapest :: rest).take 2) }
    else if scanned.price ≤ cheapest.price * (1 + margin) then
      { scanned with tag := some DealTag.SOSO,
                     recommendations := some ((cheapest :: rest).filter fun d =>
                       decide (|d.price - scanned.price| / scanned.price ≤ margin)) }
    else
      { scanned with tag := some DealTag.NODEAL,
                     recommendations := some ((cheapest :: rest).take 3) }

/-! ## Spec-side definitions and helper lemmas -/

/-- Specification-side price rule: the first present numeric value of a
priority-ordered field list, defaulting to 0 when none is present. -/
def firstNumeric (fields : List (Option ℚ)) : ℚ :=
  ((fields.filterMap id).head?).getD 0

theorem walmartPriceOf_eq_firstNumeric :
    ∀ fields, walmartPriceOf fields = firstNumeric fields
  | [] => rfl
  | none :: fs => by
      simpa [walmartPriceOf, firstNumeric] using walmartPriceOf_eq_firstNumeric fs
  | some x :: fs => by
      simp [walmartPriceOf, firstNumeric]

theorem krogerPrice_eq_firstNumeric (p : KrogerPrice) :
    (p.promo.orElse fun _ => p.regular).getD 0 = firstNumeric [p.promo, p.regular] := by
  rcases p with ⟨_ | a, _ | b⟩ <;> simp [firstNumeric]

/-- A Kroger payload record exposing promo null and regular 3.29. -/
def promoNullRecord : RawKrogerProduct :=
  { upc := none, productId := none,
    price := { promo := none, regular := some (329 / 100) },
    sizes := [], description := some "Milk", brand := none,
    attributes := none, primaryDepartment := none }

/-- A Kroger payload record with no recognized price field. -/
def noPriceRecord : RawKrogerProduct :=
  { upc := none, productId := none,
    price := { promo := none, regular := none },
    sizes := [], description := some "Milk", brand := none,
    attributes := none, primaryDepartment := none }

/-- A Walmart payload record with no recognized price field. -/
def noPriceWalmartRecord : RawWalmartItem :=
  { upc := none, itemId := none, salePrice := none, listPrice := none,
    msrp := none, price := none, name := some "Milk", title := none,
    shortName := none, mediumImage := none, imageUrl := none,
    thumbnailImage := none, brandName := none, brand := none }

/-! ## Claim theorems -/

/-- C6: for every provider product-lookup response, the canonical item
price is the first present numeric value in the provider-specific priority
order (Kroger promo then regular; Walmart salePrice, listPrice, msrp,
price), defaulting to 0 when none is present; a record with promo null
and regular 3.29 resolves to 3.29, and a record with no recognized price
field resolves to 0. -/
theorem price_priority_normalization :
    (∀ upc raw, (parseKrogerProduct upc raw).price =
        firstNumeric [raw.price.promo, raw.price.regular]) ∧
    (∀ upc storeId raw, (parseWalmartItem upc storeId raw).price =
        firstNumeric [raw.salePrice, raw.listPrice, raw.msrp, raw.price]) ∧
    (parseKrogerProduct "u" promoNullRecord).price = 329 / 100 ∧
    (parseKrogerProduct "u" noPriceRecord).price = 0 ∧
    (parseWalmartItem "u" none noPriceWalmartRecord).price = 0 := by
  refine ⟨fun upc raw => ?_, fun upc storeId raw => ?_,
    by simp [parseKrogerProduct, promoNullRecord],
    by simp [parseKrogerProduct, noPriceRecord],
    by simp [parseWalmartItem, noPriceWalmartRecord, walmartPriceOf]⟩
  · exact krogerPrice_eq_firstNumeric raw.price
  · exact walmartPriceOf_eq_firstNumeric _

/-- C5: with an empty offer list, evaluateDeal attaches no
recommendations, preserves an existing verdict unchanged, and defaults the
verdict to DEAL when none was carried. -/
theorem evaluateDeal_empty_offers (scanned : Item) :
    (evaluateDeal scanned []).recommendations = none ∧
    (∀ t, scanned.tag = some t → (evaluateDeal scanned []).tag = some t) ∧
    (scanned.tag = none → (evaluateDeal scanned []).tag = some DealTag.DEAL) := by
  refine ⟨rfl, fun t ht => ?_, fun ht => ?_⟩ <;> simp [evaluateDeal, ht]

/-- An item already carrying a verdict, for the empty-offer witness. -/
def itemTagged : Item :=
  { id := "s", name := "Eggs", brand := none, price := 3, image := "",
    store := some "Main", coordinates := none, isOrganic := none,
    tag := some DealTag.NODEAL, recommendations := none }

/-- An item carrying no verdict, for the empty-offer witness. -/
def itemUntagged : Item :=
  { id := "s", name := "Eggs", brand := none, price := 3, image := "",
    store := some "Main", coordinates := none, isOrganic := none,
    tag := none, recommendations := none }

theorem evaluateDeal_empty_offers_witness :
    (evaluateDeal itemTagged []).tag = some DealTag.NODEAL ∧
    (evaluateDeal itemUntagged []).tag = some DealTag.DEAL ∧
    (evaluateDeal itemTagged []).recommendations = none :=
  ⟨(evaluateDeal_empty_offers itemTagged).2.1 DealTag.NODEAL rfl,
   (evaluateDeal_empty_offers itemUntagged).2.2 rfl,
   (evaluateDeal_empty_offers itemTagged).1⟩

/-- C9: evaluateDeal is deterministic (it is a pure function of the pair)
and idempotent: re-evaluating its own result against the same offers
returns the same item, verdict and recommendation set included. -/
theorem evaluateDeal_idempotent (scanned : Item) (deals : List Recommendation) :
    evaluateDeal (evaluateDeal scanned deals) deals = evaluateDeal scanned deals := by
  cases deals with
  | nil => simp [evaluateDeal]
  | cons cheapest rest =>
    simp only [evaluateDeal]
    split_ifs <;> simp_all

/-- C1: for every scanned item and non-empty offer list whose first
element is the cheapest, evaluateDeal classifies with margin 0.05: scanned
price at most the cheapest price gives verdict DEAL with the first two
offers; else at most the cheapest price times 1.05 gives verdict SO-SO
with exactly the offers whose absolute relative difference from the
scanned price is at most 0.05; else verdict NO DEAL with the first three
offers. -/
theorem evaluateDeal_classifies (scanned : Item) (deals : List Recommendation)
    (hne : deals ≠ [])
    (hcheap : ∀ d ∈ deals, (deals.head hne).price ≤ d.price) :
    (scanned.price ≤ (deals.head hne).price →
      (evaluateDeal scanned deals).tag = some DealTag.DEAL ∧
      (evaluateDeal scanned deals).recommendations = some (deals.take 2)) ∧
    ((deals.head hne).price < scanned.price →
      scanned.price ≤ (deals.head hne).price * (1 + 5 / 100) →
      (evaluateDeal scanned deals).tag = some DealTag.SOSO ∧
      (evaluateDeal scanned deals).recommendations =
        some (deals.filter fun d =>
          decide (|d.price - scanned.price| / scanned.price ≤ 5 / 100))) ∧
    ((deals.head hne).price < scanned.price →
      (deals.head hne).price * (1 + 5 / 100) < scanned.price →
      (evaluateDeal scanned deals).tag = some DealTag.NODEAL ∧
      (evaluateDeal scanned deals).recommendations = some (deals.take 3)) := by
  cases deals with
  | nil => exact absurd rfl hne
  | cons cheapest rest =>
    simp only [List.head_cons, evaluateDeal, margin]
    refine ⟨fun h1 => ?_, fun h1 h2 => ?_, fun h1 h2 => ?_⟩
    · rw [if_pos h1]
      exact ⟨rfl, rfl⟩
    · rw [if_neg (not_le.mpr h1), if_pos h2]
      exact ⟨rfl, rfl⟩
    · rw [if_neg (not_le.mpr h1), if_neg (not_le.mpr h2)]
      exact ⟨rfl, rfl⟩

/-- Scanned item of the classification witness, scenario A of the spec
scaled by 100: scanned price 59 against offers 69 and 79. -/
def scannedA : Item :=
  { id := "s", name := "Eggs", brand := none, price := 59, image := "",
    store := some "Main", coordinates := none, isOrganic := none,
    tag := none, recommendations := none }

/-- Offer list of the classification witness. -/
def dealsA : List Recommendation :=
  [{ id := "a", name := "Eggs", price := 69, store := "S1", distance := none },
   { id := "b", name := "Eggs", price := 79, store := "S2", distance := none }]

theorem evaluateDeal_classifies_witness :
    (evaluateDeal scannedA dealsA).tag = some DealTag.DEAL ∧
    (evaluateDeal scannedA dealsA).recommendations = some (dealsA.take 2) := by
  have h := evaluateDeal_classifies scannedA dealsA (by simp [dealsA])
    (by intro d hd; fin_cases hd <;> norm_num [dealsA, scannedA])
  exact h.1 (by norm_num [dealsA, scannedA])

/-! ## Pipeline helper lemmas -/

theorem insertByPrice_perm (d : Recommendation) (l : List Recommendation) :
    (insertByPrice d l).Perm (d :: l) := by
  induction l with
  | nil => simp [insertByPrice]
  | cons e es ih =>
    simp only [insertByPrice]
    split_ifs with h
    · exact ((ih.cons e).trans (List.Perm.swap d e es))
    · exact List.Perm.refl _

theorem sortByPrice_perm (l : List Recommendation) :
    (sortByPrice l).Perm l := by
  induction l with
  | nil => simp [sortByPrice]
  | cons a t ih =>
    have : sortByPrice (a :: t) = insertByPrice a (sortByPrice t) := rfl
    rw [this]
    exact (insertByPrice_perm a (sortByPrice t)).trans (ih.cons a)

theorem mem_sortByPrice {d : Recommendation} {l : List Recommendation} :
    d ∈ sortByPrice l ↔ d ∈ l :=
  (sortByPrice_perm l).mem_iff

theorem insertByPrice_pairwise (d : Recommendation) (l : List Recommendation)
    (h : l.Pairwise fun a b => a.price ≤ b.price) :
    (insertByPrice d l).Pairwise fun a b => a.price ≤ b.price := by
  induction l with
  | nil => simp [insertByPrice]
  | cons e es ih =>
    rw [List.pairwise_cons] at h
    simp only [insertByPrice]
    split_ifs with hlt
    · rw [List.pairwise_cons]
      refine ⟨fun x hx => ?_, ih h.2⟩
      rcases List.mem_cons.mp ((insertByPrice_perm d es).mem_iff.mp hx) with hx | hx
      · rw [hx]; exact le_of_lt hlt
      · exact h.1 x hx
    · rw [List.pairwise_cons]
      refine ⟨fun x hx => ?_, List.pairwise_cons.mpr h⟩
      rcases List.mem_cons.mp hx with hx | hx
      · rw [hx]; exact le_of_not_lt hlt
      · exact le_trans (le_of_not_lt hlt) (h.1 x hx)

theorem sortByPrice_pairwise (l : List Recommendation) :
    (sortByPrice l).Pairwise fun a b => a.price ≤ b.price := by
  induction l with
  | nil => simp [sortByPrice]
  | cons a t ih => exact insertByPrice_pairwise a (sortByPrice t) ih

/-- The item component of fetchProductWithDeals is the canonical
selection. -/
theorem fetch_item_eq (env : Env) (upc : String) :
    (fetchProductWithDeals env upc).1.item = resolvedItemOf env upc := by
  unfold fetchProductWithDeals
  rcases h : resolvedItemOf env upc with _ | x <;> simp

/-- When the canonical item is present, the returned deals are the stable
price sort of the self-filtered deal list. -/
theorem fetch_deals_of_item_some {env : Env} {upc : String} {it : Item}
    (h : (fetchProductWithDeals env upc).1.item = some it) :
    (fetchProductWithDeals env upc).1.deals =
      sortByPrice (selfFilteredDeals env upc) := by
  rw [fetch_item_eq] at h
  unfold fetchProductWithDeals
  rw [h]

theorem insertByPrice_filter_pos (d : Recommendation) (l : List Recommendation)
    (p : ℚ) (hd : d.price = p) :
    (insertByPrice d l).filter (fun e => decide (e.price = p)) =
      d :: l.filter (fun e => decide (e.price = p)) := by
  induction l with
  | nil => simp [insertByPrice, hd]
  | cons e es ih =>
    simp only [insertByPrice]
    split_ifs with hlt
    · have hne : ¬ (e.price = p) := by rw [← hd]; exact ne_of_lt hlt
      simp [List.filter_cons, hne, ih]
    · simp [List.filter_cons, hd]

theorem insertByPrice_filter_neg (d : Recommendation) (l : List Recommendation)
    (p : ℚ) (hd : ¬ d.price = p) :
    (insertByPrice d l).filter (fun e => decide (e.price = p)) =
      l.filter (fun e => decide (e.price = p)) := by
  induction l with
  | nil => simp [insertByPrice, hd]
  | cons e es ih =>
    simp only [insertByPrice]
    split_ifs with hlt
    · simp [List.filter_cons, ih]
    · simp [List.filter_cons, hd]

/-- Stability of the price sort: the offers at any fixed price appear in
the sorted output exactly as they appear in the input. -/
theorem sortByPrice_filter_price_eq (l : List Recommendation) (p : ℚ) :
    (sortByPrice l).filter (fun d => decide (d.price = p)) =
      l.filter (fun d => decide (d.price = p)) := by
  induction l with
  | nil => simp [sortByPrice]
  | cons a t ih =>
    have hstep : sortByPrice (a :: t) = insertByPrice a (sortByPrice t) := rfl
    rw [hstep]
    by_cases ha : a.price = p
    · rw [insertByPrice_filter_pos a (sortByPrice t) p ha, ih, List.filter_cons]
      simp [ha]
    · rw [insertByPrice_filter_neg a (sortByPrice t) p ha, ih, List.filter_cons]
      simp [ha]

/-- C3: for every resolve call returning a non-absent item, the returned
deals are non-decreasing by price, and the offers at any fixed price
appear exactly in the order they were appended (provider order, then store
order), that is, as in the self-filtered appended list. -/
theorem resolve_deals_sorted_stable (env : Env) (upc : String) (it : Item)
    (h : (fetchProductWithDeals env upc).1.item = some it) :
    ((fetchProductWithDeals env upc).1.deals).Pairwise
        (fun a b => a.price ≤ b.price) ∧
    ∀ p : ℚ, ((fetchProductWithDeals env upc).1.deals).filter
        (fun d => decide (d.price = p)) =
      (selfFilteredDeals env upc).filter (fun d => decide (d.price = p)) := by
  rw [fetch_deals_of_item_some h]
  exact ⟨sortByPrice_pairwise _, fun p => sortByPrice_filter_price_eq _ p⟩

/-- Raw location of the sortedness witness environment. -/
def rawLocC3 : RawKrogerLocation :=
  { locationId := "L1", addressName := some "alpha", geoLat := none, geoLon := none }

/-- Raw product of the sortedness witness environment. -/
def rawProdC3 : RawKrogerProduct :=
  { upc := none, productId := none,
    price := { promo := none, regular := some 2 },
    sizes := [], description := some "Milk", brand := none,
    attributes := none, primaryDepartment := none }

/-- Kroger-only environment of the sortedness witness. -/
def envC3 : Env :=
  { krogerClientId := some "k", krogerClientSecret := some "s",
    walmartPublisherId := none,
    krogerAuthResp := some "t",
    krogerLocationsResp := some [rawLocC3],
    krogerProductResp := fun _ => some rawProdC3,
    krogerSearchResp := none,
    walmartStoresResp := none,
    walmartItemResp := fun _ _ => none,
    walmartSearchResp := none }

/-- The canonical item envC3 resolves to. -/
def itemC3 : Item :=
  { id := "u", name := "Milk", brand := none, price := 2, image := "",
    store := some "alpha", coordinates := some { lat := 0, lon := 0 },
    isOrganic := some false, tag := none, recommendations := none }

theorem resolve_deals_sorted_stable_witness :
    ((fetchProductWithDeals envC3 "u").1.deals).Pairwise
        (fun a b => a.price ≤ b.price) ∧
    ((fetchProductWithDeals envC3 "u").1.deals).filter
        (fun d => decide (d.price = 2)) =
      (selfFilteredDeals envC3 "u").filter (fun d => decide (d.price = 2)) := by
  have h := resolve_deals_sorted_stable envC3 "u" itemC3 rfl
  exact ⟨h.1, h.2 2⟩

/-- C4: for every resolve call whose canonical item has a defined store
label, no returned deal has a store label equal to the canonical label
under case-insensitive comparison. -/
theorem resolve_self_exclusion (env : Env) (upc : String) (it : Item) (s : String)
    (hit : (fetchProductWithDeals env upc).1.item = some it)
    (hs : it.store = some s) :
    ∀ d ∈ (fetchProductWithDeals env upc).1.deals,
      jsToLower d.store ≠ jsToLower s := by
  intro d hd
  rw [fetch_deals_of_item_some hit, mem_sortByPrice] at hd
  have hres : resolvedItemOf env upc = some it := by
    rw [← fetch_item_eq]; exact hit
  unfold selfFilteredDeals at hd
  rw [hres] at hd
  have hpred := List.of_mem_filter hd
  rw [scannedStoreOf, hs] at hpred
  simp only [Option.map_some, Bool.not_eq_eq_eq_not, Bool.not_true,
    beq_eq_false_iff_ne, ne_eq, Option.some.injEq] at hpred
  exact fun hEq => hpred (by simp [hEq])

/-- First (product-less) location of the self-exclusion witness. -/
def rawLocC4a : RawKrogerLocation :=
  { locationId := "L1", addressName := some "alpha", geoLat := none, geoLon := none }

/-- Second location of the self-exclusion witness; only this one carries
the product. -/
def rawLocC4b : RawKrogerLocation :=
  { locationId := "L2", addressName := some "beta", geoLat := none, geoLon := none }

/-- Kroger product of the self-exclusion witness, present only at L2. -/
def rawProdC4 : RawKrogerProduct :=
  { upc := none, productId := none,
    price := { promo := none, regular := some 3 },
    sizes := [], description := some "Milk", brand := none,
    attributes := none, primaryDepartment := none }

/-- Walmart store of the self-exclusion witness. -/
def rawStoreC4 : RawWalmartStore :=
  { no := some "W1", storeId := none, id := none, name := some "wm",
    storeType := none, zip := none, zipCode := none, postalCode := none }

/-- Walmart item of the self-exclusion witness. -/
def rawItemC4 : RawWalmartItem :=
  { upc := none, itemId := none, salePrice := some 5, listPrice := none,
    msrp := none, price := none, name := some "Milk", title := none,
    shortName := none, mediumImage := none, imageUrl := none,
    thumbnailImage := none, brandName := none, brand := none }

/-- Environment of the self-exclusion witness: the Kroger candidate fails
at the first store (so the canonical item is the Walmart one) but the
Kroger deal walk still finds the product at the second store. -/
def envC4 : Env :=
  { krogerClientId := some "k", krogerClientSecret := some "s",
    walmartPublisherId := some "w",
    krogerAuthResp := some "t",
    krogerLocationsResp := some [rawLocC4a, rawLocC4b],
    krogerProductResp := fun lid => if lid == "L2" then some rawProdC4 else none,
    krogerSearchResp := none,
    walmartStoresResp := some [rawStoreC4],
    walmartItemResp := fun _ _ => some rawItemC4,
    walmartSearchResp := none }

/-- The canonical (Walmart) item envC4 resolves to. -/
def itemC4 : Item :=
  { id := "u", name := "Milk", brand := none, price := 5, image := "",
    store := some "Walmart (W1)", coordinates := none,
    isOrganic := some false, tag := none, recommendations := none }

/-- The single Kroger deal envC4 produces. -/
def recC4 : Recommendation :=
  { id := "u", name := "Milk", price := 3, store := "Kroger (beta)", distance := none }

theorem resolve_self_exclusion_witness :
    jsToLower recC4.store ≠ jsToLower "Walmart (W1)" := by
  have hmem : recC4 ∈ (fetchProductWithDeals envC4 "u").1.deals := by
    have hd : (fetchProductWithDeals envC4 "u").1.deals = [recC4] := by decide
    rw [hd]
    exact List.mem_singleton.mpr rfl
  exact resolve_self_exclusion envC4 "u" itemC4 "Walmart (W1)" (by decide) rfl recC4 hmem

/-- C7: with no provider configured (Kroger client id or secret absent and
Walmart publisher id absent), resolve returns the absent item with an
empty deal list and performs no network call. -/
theorem no_providers_no_calls (env : Env) (upc : String)
    (hk : env.krogerClientId = none ∨ env.krogerClientSecret = none)
    (hw : env.walmartPublisherId = none) :
    fetchProductWithDeals env upc = ({ item := none, deals := [] }, []) := by
  have htok : getKrogerAccessToken env = (none, []) := by
    rcases hk with h | h <;> simp [getKrogerAccessToken, h, truthyStr]
  have hkc : krogerCandidate env upc = (none, []) := by
    simp [krogerCandidate, krogerTokenOf, htok, truthyStr]
  have hwc : walmartCandidate env upc = (none, []) := by
    simp [walmartCandidate, hasWalmartOf, hw, truthyStr]
  have hres : resolvedItemOf env upc = none := by
    simp [resolvedItemOf, hkc, hwc]
  simp [fetchProductWithDeals, hres, resolveCalls, htok, hkc, hwc]

/-- Environment of the no-provider witness: every secret is absent while
every remote endpoint would answer, so the empty result comes from the
configuration guards alone. -/
def envC7 : Env :=
  { krogerClientId := none, krogerClientSecret := none,
    walmartPublisherId := none,
    krogerAuthResp := some "t",
    krogerLocationsResp := some [rawLocC4a],
    krogerProductResp := fun _ => some rawProdC4,
    krogerSearchResp := none,
    walmartStoresResp := some [rawStoreC4],
    walmartItemResp := fun _ _ => some rawItemC4,
    walmartSearchResp := none }

theorem no_providers_no_calls_witness :
    fetchProductWithDeals envC7 "u" = ({ item := none, deals := [] }, []) :=
  no_providers_no_calls envC7 "u" (Or.inl rfl) rfl

/-- First Kroger location of the provider-exclusion environment. -/
def rawLocC2a : RawKrogerLocation :=
  { locationId := "L1", addressName := some "alpha", geoLat := none, geoLon := none }

/-- Second Kroger location of the provider-exclusion environment. -/
def rawLocC2b : RawKrogerLocation :=
  { locationId := "L2", addressName := some "beta", geoLat := none, geoLon := none }

/-- Kroger product at L1 of the provider-exclusion environment. -/
def rawProdC2a : RawKrogerProduct :=
  { upc := none, productId := none,
    price := { promo := none, regular := some 2 },
    sizes := [], description := some "Milk", brand := none,
    attributes := none, primaryDepartment := none }

/-- Kroger product at L2 of the provider-exclusion environment. -/
def rawProdC2b : RawKrogerProduct :=
  { upc := none, productId := none,
    price := { promo := none, regular := some 3 },
    sizes := [], description := some "Milk", brand := none,
    attributes := none, primaryDepartment := none }

/-- Walmart store of the provider-exclusion environment. -/
def rawStoreC2 : RawWalmartStore :=
  { no := some "W1", storeId := none, id := none, name := some "wm",
    storeType := none, zip := none, zipCode := none, postalCode := none }

/-- Walmart item of the provider-exclusion environment. -/
def rawItemC2 : RawWalmartItem :=
  { upc := none, itemId := none, salePrice := some 4, listPrice := none,
    msrp := none, price := none, name := some "Milk", title := none,
    shortName := none, mediumImage := none, imageUrl := none,
    thumbnailImage := none, brandName := none, brand := none }

/-- Environment in which both providers are configured and both resolve
the product: the canonical item comes from Kroger (store alpha), and the
Walmart item also exists, so the deal phase runs both providers. -/
def envC2 : Env :=
  { krogerClientId := some "k", krogerClientSecret := some "s",
    walmartPublisherId := some "w",
    krogerAuthResp := some "t",
    krogerLocationsResp := some [rawLocC2a, rawLocC2b],
    krogerProductResp := fun lid =>
      if lid == "L1" then some rawProdC2a
      else if lid == "L2" then some rawProdC2b
      else none,
    krogerSearchResp := none,
    walmartStoresResp := some [rawStoreC2],
    walmartItemResp := fun _ _ => some rawItemC2,
    walmartSearchResp := none }

/-- C2: the claim that competitor offers are never fetched from the
provider that supplied the canonical item fails on the code. In envC2 the
canonical item comes from the Kroger adapter (its store label is the
Kroger location alpha), yet the returned deal list contains the offers
produced by the Kroger per-store deal walk, labels Kroger (alpha) and
Kroger (beta), because the guard for the Kroger deal fetch only checks
that the Walmart candidate and the Kroger token exist, not that the
canonical item came from Walmart. The offer priced 2 even comes from the
very store the canonical item was resolved at. -/
theorem kroger_self_provider_deals :
    ((fetchProductWithDeals envC2 "u").1.item.map Item.store =
      some (some "alpha")) ∧
    ((fetchProductWithDeals envC2 "u").1.deals.map Recommendation.store =
      ["Kroger (alpha)", "Kroger (beta)", "Walmart (W1)"]) := by
  constructor
  · rfl
  · decide

/-- Environment of the search-bound counterexample: the provider answers
the free-text search with 21 entries despite the requested limit of 20. -/
def envC8 : Env :=
  { krogerClientId := some "k", krogerClientSecret := some "s",
    walmartPublisherId := some "w",
    krogerAuthResp := some "t",
    krogerLocationsResp := some [rawLocC2a],
    krogerProductResp := fun _ => none,
    krogerSearchResp := some (List.replicate 21 rawProdC2a),
    walmartStoresResp := some [rawStoreC2],
    walmartItemResp := fun _ _ => none,
    walmartSearchResp := none }

/-- C8 counterexample: the adapter search does not truncate the response
payload, so a 21-entry payload yields 21 items, refuting the claim that
the search always returns at most 20 items. -/
theorem search_bound_counterexample :
    ¬ ((searchKrogerProducts envC8 "milk").1.length ≤ 20) := by decide

/-- C8 amended: each adapter search asks the provider for at most 20
results (Kroger filter.limit, Walmart numItems), returns one item per
entry of the response payload, never more than the payload length (so at
most 20 exactly when the provider honors the requested limit), and
returns an empty sequence on any transport or decode failure. -/
theorem search_one_item_per_payload_entry :
    (∀ env term, (searchKrogerProducts env term).1.length ≤
        (env.krogerSearchResp.getD []).length) ∧
    (∀ env term, env.krogerSearchResp = none →
        (searchKrogerProducts env term).1 = []) ∧
    (∀ term locationId, ("filter.limit", "20") ∈ krogerSearchQuery term locationId) ∧
    (∀ env term, (searchWalmartProducts env term).1.length =
        (env.walmartSearchResp.getD []).length) ∧
    (∀ env term, env.walmartSearchResp = none →
        (searchWalmartProducts env term).1 = []) ∧
    (∀ term, ("numItems", "20") ∈ walmartSearchQuery term) := by
  refine ⟨fun env term => ?_, fun env term h => ?_,
    fun term locationId => by simp [krogerSearchQuery],
    fun env term => ?_, fun env term h => ?_,
    fun term => by simp [walmartSearchQuery]⟩
  · rcases hL : env.krogerLocationsResp with _ | raws
    · simp [searchKrogerProducts, searchKrogerLocations, hL]
    · rcases raws with _ | ⟨r, rs⟩
      · simp [searchKrogerProducts, searchKrogerLocations, hL]
      · rcases hS : env.krogerSearchResp with _ | data <;>
          simp [searchKrogerProducts, searchKrogerLocations, hL, hS]
  · rcases hL : env.krogerLocationsResp with _ | raws
    · simp [searchKrogerProducts, searchKrogerLocations, hL]
    · rcases raws with _ | ⟨r, rs⟩ <;>
        simp [searchKrogerProducts, searchKrogerLocations, hL, h]
  · rcases hS : env.walmartSearchResp with _ | items <;>
      simp [searchWalmartProducts, hS]
  · simp [searchWalmartProducts, h]

theorem search_one_item_per_payload_entry_witness :
    (searchKrogerProducts envC8 "milk").1.length ≤
        (envC8.krogerSearchResp.getD []).length ∧
    (searchWalmartProducts envC8 "milk").1 = [] ∧
    ("filter.limit", "20") ∈ krogerSearchQuery "milk" "L1" :=
  ⟨search_one_item_per_payload_entry.1 envC8 "milk",
   search_one_item_per_payload_entry.2.2.2.2.1 envC8 "milk" rfl,
   search_one_item_per_payload_entry.2.2.1 "milk" "L1"⟩

/-- C10: every offer in a provider deal list has a nonzero price; the
truthiness guard on product.price silently omits any store whose lookup
resolves to price 0. -/
theorem deal_offers_nonzero_price :
    (∀ env upc d, d ∈ (getKrogerDeals env upc).1 → d.price ≠ 0) ∧
    (∀ env upc d, d ∈ (getWalmartDeals env upc).1 → d.price ≠ 0) := by
  constructor
  · intro env upc d hd
    unfold getKrogerDeals at hd
    rw [mem_sortByPrice, List.mem_filterMap] at hd
    obtain ⟨loc, hloc, hf⟩ := hd
    rcases hp : (getKrogerProductByUPC env upc loc.locationId).1 with _ | p
    · rw [hp] at hf; simp at hf
    · rw [hp] at hf
      by_cases h0 : p.price = 0
      · simp [h0] at hf
      · simp only [h0, if_false, Option.some.injEq] at hf
        rw [← hf]
        simpa using h0
  · intro env upc d hd
    unfold getWalmartDeals at hd
    rw [mem_sortByPrice, List.mem_filterMap] at hd
    obtain ⟨store, hstore, hf⟩ := hd
    rcases hp : (getWalmartProductByUPC env upc (some store.id) store.zipCode).1 with _ | p
    · rw [hp] at hf; simp at hf
    · rw [hp] at hf
      by_cases h0 : p.price = 0
      · simp [h0] at hf
      · simp only [h0, if_false, Option.some.injEq] at hf
        rw [← hf]
        simpa using h0

/-- Kroger location of the nonzero-price witness. -/
def rawLocC10 : RawKrogerLocation :=
  { locationId := "L1", addressName := some "alpha", geoLat := none, geoLon := none }

/-- Kroger product of the nonzero-price witness. -/
def rawProdC10 : RawKrogerProduct :=
  { upc := none, productId := none,
    price := { promo := none, regular := some 2 },
    sizes := [], description := some "Milk", brand := none,
    attributes := none, primaryDepartment := none }

/-- Environment of the nonzero-price witness. -/
def envC10 : Env :=
  { krogerClientId := some "k", krogerClientSecret := some "s",
    walmartPublisherId := none,
    krogerAuthResp := some "t",
    krogerLocationsResp := some [rawLocC10],
    krogerProductResp := fun _ => some rawProdC10,
    krogerSearchResp := none,
    walmartStoresResp := none,
    walmartItemResp := fun _ _ => none,
    walmartSearchResp := none }

/-- The single offer the nonzero-price witness produces. -/
def recC10 : Recommendation :=
  { id := "u", name := "Milk", price := 2, store := "Kroger (alpha)", distance := none }

theorem deal_offers_nonzero_price_witness : recC10.price ≠ 0 := by
  have hmem : recC10 ∈ (getKrogerDeals envC10 "u").1 := by
    have hd : (getKrogerDeals envC10 "u").1 = [recC10] := by decide
    rw [hd]
    exact List.mem_singleton.mpr rfl
  exact deal_offers_nonzero_price.1 envC10 "u" recC10 hmem
